import Mathlib

/-
Verification of the clock-alignment engine of `constantinople-lab-to-nwb`.

The alignment procedure is documented in the repository notes
(`fiber_photometry` and `schierek_embargo_2024` conversion notes): a time
shift is computed from the first trial-start marker of the primary (Bpod)
clock and the first corresponding marker of the secondary (Doric / NIDAQ)
clock, and then one of three shift-policy branches moves either the
secondary timelines or the primary timelines plus the session reference
epoch.  Timestamps are modelled as exact rationals (`ℚ`) standing in for
floating-point seconds.
-/

/-- An EventTimeline: an ordered sequence of scalar timestamps (seconds)
produced by one acquisition source, expressed in that source's own clock. -/
abbrev EventTimeline := List ℚ

/-- A ClockPair: the primary (behavioral controller, e.g. Bpod) marker
timeline and the secondary (e.g. Doric fiber photometry or NIDAQ recording)
marker timeline, aligned by index. -/
structure ClockPair where
  primary : EventTimeline
  secondary : EventTimeline
deriving DecidableEq

/-- The TimeShift of a ClockPair, from the notes:
`time_shift = bpod_trial_start_times[0] - doric_trial_start_times[0]`.
Returns `none` when either marker timeline is empty (fatal input error). -/
def ClockPair.time_shift (cp : ClockPair) : Option ℚ :=
  match cp.primary, cp.secondary with
  | p0 :: _, s0 :: _ => some (p0 - s0)
  | _, _ => none

/-- Applying a time shift to a timeline, from the notes:
`aligned_timestamps = unaligned_timestamps + time_shift`. -/
def aligned_timestamps (shift : ℚ) (timestamps : EventTimeline) : EventTimeline :=
  timestamps.map (fun t => t + shift)

/-- The three shift-policy branches of the alignment engine. -/
inductive ShiftBranch where
  | branch1
  | branch2
  | branch3
deriving DecidableEq

/-- Modelled from the spec: the pure branch-classification function of the
shift-policy dispatch.  Given the TimeShift `shift` and the secondary
timeline's first raw-sample timestamp `sfs`, branch 1 applies when the shift
is negative and the candidate aligned first sample `sfs + shift` is negative,
branch 2 when the shift is negative but the candidate is non-negative, and
branch 3 when the shift is non-negative. -/
def selectBranch (shift sfs : ℚ) : ShiftBranch :=
  if shift < 0 then
    if sfs + shift < 0 then ShiftBranch.branch1 else ShiftBranch.branch2
  else ShiftBranch.branch3

/-- Modelled from the spec: the per-session bundle handed to the alignment
engine.  `referenceEpoch` is the session start instant (seconds on an
absolute axis); `primaryMarkers` are the Bpod trial-start times;
`primarySeries` are all the other primary-clock time series (per-trial
event/state timestamps); `secondaryMarkers` are the secondary-side derived
marker times (e.g. center-port onset times); `secondaryRaw` is the secondary
source's raw sample timeline; `secondarySeries` are further secondary-clock
series (e.g. video frame times). -/
structure Session where
  referenceEpoch : ℚ
  primaryMarkers : EventTimeline
  primarySeries : List EventTimeline
  secondaryMarkers : EventTimeline
  secondaryRaw : EventTimeline
  secondarySeries : List EventTimeline
deriving DecidableEq

/-- The fatal error taxonomy of the alignment engine. -/
inductive AlignmentError where
  | inputMismatch
  | negativeTimestamp
  | alignmentImpossible
deriving DecidableEq

/-- Every timestamp belonging to the secondary source of a session. -/
def Session.secondaryTimestamps (s : Session) : List ℚ :=
  s.secondaryRaw ++ s.secondaryMarkers ++ s.secondarySeries.flatten

/-- Every timestamp belonging to the primary source of a session
(the reference epoch is an absolute instant, not a member). -/
def Session.primaryTimestamps (s : Session) : List ℚ :=
  s.primaryMarkers ++ s.primarySeries.flatten

/-- Modelled from the spec: the branch-1 shift application.  The primary
timeline (markers and every primary-clock series) and the ReferenceEpoch are
shifted backward by the single amount `amount` (which is negative in branch
1); the secondary timelines are left untouched. -/
def shiftPrimary (amount : ℚ) (s : Session) : Session :=
  { s with
    referenceEpoch := s.referenceEpoch + amount
    primaryMarkers := aligned_timestamps amount s.primaryMarkers
    primarySeries := s.primarySeries.map (aligned_timestamps amount) }

/-- Modelled from the spec: the branch-2/3 shift application.  The TimeShift
is added to every secondary-clock series (raw samples, derived markers and
any further secondary series); the primary timelines and the ReferenceEpoch
are left untouched. -/
def shiftSecondary (shift : ℚ) (s : Session) : Session :=
  { s with
    secondaryMarkers := aligned_timestamps shift s.secondaryMarkers
    secondaryRaw := aligned_timestamps shift s.secondaryRaw
    secondarySeries := s.secondarySeries.map (aligned_timestamps shift) }

/-- Modelled from the spec: the Clock Alignment Engine, invoked once per
session.  It checks the marker timelines (equal length, both non-empty;
otherwise `inputMismatch` before any shift is applied), computes the
TimeShift from the first marker pair, dispatches on the three-branch shift
policy, and verifies that no secondary timestamp is negative after the shift
(`negativeTimestamp`) and, in branch 1, that the primary side was not pushed
below zero (`alignmentImpossible`).  The secondary first raw-sample time
defaults to the first secondary marker when no raw samples are present.
`applyShiftPolicy` is the shift-policy dispatch given the first primary
marker `p0` and the first secondary marker `s0`. -/
def applyShiftPolicy (p0 s0 : ℚ) (s : Session) : Except AlignmentError Session :=
  let shift := p0 - s0
  let sfs := s.secondaryRaw.headD s0
  match selectBranch shift sfs with
  | ShiftBranch.branch1 =>
    let out := shiftPrimary (sfs + shift) s
    if ∀ t ∈ out.primaryTimestamps, 0 ≤ t then
      if ∀ t ∈ out.secondaryTimestamps, 0 ≤ t then Except.ok out
      else Except.error AlignmentError.negativeTimestamp
    else Except.error AlignmentError.alignmentImpossible
  | _ =>
    let out := shiftSecondary shift s
    if ∀ t ∈ out.secondaryTimestamps, 0 ≤ t then Except.ok out
    else Except.error AlignmentError.negativeTimestamp

/-- Modelled from the spec: the engine entry point — validates that both
marker timelines are non-empty and of equal length (otherwise
`inputMismatch`, before any shift is computed or applied), then dispatches
the shift policy on the first marker pair. -/
def alignSession (s : Session) : Except AlignmentError Session :=
  match s.primaryMarkers.head?, s.secondaryMarkers.head? with
  | some p0, some s0 =>
    if s.primaryMarkers.length = s.secondaryMarkers.length then
      applyShiftPolicy p0 s0 s
    else Except.error AlignmentError.inputMismatch
  | _, _ => Except.error AlignmentError.inputMismatch

/-- Modelled from the spec: trial-window event localization.  The Bpod data
contains relative timestamps for each event; they are converted to absolute
timestamps by adding the start time of the trial (from
`TrialStartTimestamp`) to the relative timestamps. -/
def absoluteEventTime (trial_start_times : List ℚ) (trial : Nat) (rel : ℚ) : Option ℚ :=
  (trial_start_times[trial]?).map (fun t0 => t0 + rel)

/-- Modelled from the spec: reconstruction of a state-interval table keyed by
trial index — each relative interval becomes an absolute interval by adding
the trial's aligned start time to both endpoints. -/
def reconstructStateTable (trial_start_times : List ℚ)
    (tbl : List (Nat × ℚ × ℚ)) : List (Option (ℚ × ℚ)) :=
  tbl.map (fun e => (trial_start_times[e.1]?).map (fun t0 => (t0 + e.2.1, t0 + e.2.2)))

/-- Modelled from the spec: reconstruction of a discrete-event table keyed by
trial index. -/
def reconstructEventTable (trial_start_times : List ℚ)
    (tbl : List (Nat × ℚ)) : List (Option ℚ) :=
  tbl.map (fun e => absoluteEventTime trial_start_times e.1 e.2)

/-- Modelled from the spec: reconstruction of an action table keyed by trial
index (same uniform rule as events). -/
def reconstructActionTable (trial_start_times : List ℚ)
    (tbl : List (Nat × ℚ)) : List (Option ℚ) :=
  tbl.map (fun e => absoluteEventTime trial_start_times e.1 e.2)

lemma aligned_timestamps_length (shift : ℚ) (ts : EventTimeline) :
    (aligned_timestamps shift ts).length = ts.length := by
  simp [aligned_timestamps]

lemma aligned_timestamps_getElem (shift : ℚ) (ts : EventTimeline) (i : Nat)
    (h : i < ts.length) :
    (aligned_timestamps shift ts)[i]! = ts[i]! + shift := by
  have hl : i < (aligned_timestamps shift ts).length := by
    rw [aligned_timestamps_length]; exact h
  rw [getElem!_pos (aligned_timestamps shift ts) i hl, getElem!_pos ts i h]
  simp [aligned_timestamps]

/-- C1: for every ClockPair with non-empty primary and secondary marker
timelines, the computed TimeShift equals `primary[0] - secondary[0]`; the
tails of both timelines are arbitrary, so no other marker influences the
result. -/
theorem time_shift_uses_first_marker_only (p0 s0 : ℚ) (pt st : EventTimeline) :
    (ClockPair.mk (p0 :: pt) (s0 :: st)).time_shift = some (p0 - s0) := rfl

/-- C2: the branch classification is total and disjoint — for every pair
(Δ, sfs) of the TimeShift and the secondary first raw-sample time, branch 1
is selected iff Δ < 0 and sfs + Δ < 0, branch 2 iff Δ < 0 and sfs + Δ ≥ 0,
and branch 3 iff Δ ≥ 0, boundary inputs included. -/
theorem selectBranch_total_disjoint (d sfs : ℚ) :
    (selectBranch d sfs = ShiftBranch.branch1 ↔ d < 0 ∧ sfs + d < 0) ∧
    (selectBranch d sfs = ShiftBranch.branch2 ↔ d < 0 ∧ 0 ≤ sfs + d) ∧
    (selectBranch d sfs = ShiftBranch.branch3 ↔ 0 ≤ d) := by
  unfold selectBranch
  split_ifs with h1 h2 <;> refine ⟨?_, ?_, ?_⟩ <;> simp_all

/-- C10: applying a TimeShift to a timeline preserves all pairwise
differences between timestamps, and therefore maps monotonically
non-decreasing timelines to monotonically non-decreasing timelines. -/
theorem aligned_timestamps_preserves_intervals (shift : ℚ) (ts : EventTimeline) :
    (∀ i j, i < ts.length → j < ts.length →
      (aligned_timestamps shift ts)[i]! - (aligned_timestamps shift ts)[j]! =
        ts[i]! - ts[j]!) ∧
    (List.Pairwise (fun a b => a ≤ b) ts →
      List.Pairwise (fun a b => a ≤ b) (aligned_timestamps shift ts)) := by
  constructor
  · intro i j hi hj
    rw [aligned_timestamps_getElem shift ts i hi, aligned_timestamps_getElem shift ts j hj]
    ring
  · intro hmono
    unfold aligned_timestamps
    rw [List.pairwise_map]
    exact hmono.imp (fun hab => by linarith)

/-- Witness for C10 at the concrete timeline [1, 2, 4] and shift 5. -/
theorem aligned_timestamps_preserves_intervals_check :
    (aligned_timestamps 5 [1, 2, 4])[0]! - (aligned_timestamps 5 [1, 2, 4])[2]! =
      (1 : ℚ) - 4 ∧
    List.Pairwise (fun a b => a ≤ b) (aligned_timestamps 5 [1, 2, 4]) :=
  ⟨(aligned_timestamps_preserves_intervals 5 [1, 2, 4]).1 0 2 (by decide) (by decide),
   (aligned_timestamps_preserves_intervals 5 [1, 2, 4]).2 (by decide)⟩

lemma aligned_timestamps_head (d : ℚ) (ts : EventTimeline) :
    (aligned_timestamps d ts).head? = ts.head?.map (fun t => t + d) := by
  cases ts <;> simp [aligned_timestamps]

lemma aligned_timestamps_zero (ts : EventTimeline) : aligned_timestamps 0 ts = ts := by
  simp [aligned_timestamps]

lemma shiftSecondary_zero (s : Session) : shiftSecondary 0 s = s := by
  have hfun : aligned_timestamps (0 : ℚ) = fun ts => ts := funext aligned_timestamps_zero
  cases s
  simp [shiftSecondary, hfun]

lemma selectBranch_eq_branch1 (d sfs : ℚ) :
    selectBranch d sfs = ShiftBranch.branch1 ↔ d < 0 ∧ sfs + d < 0 := by
  unfold selectBranch
  split_ifs with h1 h2 <;> simp_all

lemma alignSession_valid (s : Session) (p0 s0 : ℚ)
    (hp : s.primaryMarkers.head? = some p0)
    (hs : s.secondaryMarkers.head? = some s0)
    (hlen : s.primaryMarkers.length = s.secondaryMarkers.length) :
    alignSession s = applyShiftPolicy p0 s0 s := by
  unfold alignSession
  rw [hp, hs]
  simp [hlen]

lemma applyShiftPolicy_branch1 (p0 s0 : ℚ) (s : Session)
    (hb : selectBranch (p0 - s0) (s.secondaryRaw.headD s0) = ShiftBranch.branch1) :
    applyShiftPolicy p0 s0 s =
      (if ∀ t ∈ (shiftPrimary (s.secondaryRaw.headD s0 + (p0 - s0)) s).primaryTimestamps, 0 ≤ t then
        if ∀ t ∈ (shiftPrimary (s.secondaryRaw.headD s0 + (p0 - s0)) s).secondaryTimestamps, 0 ≤ t then
          Except.ok (shiftPrimary (s.secondaryRaw.headD s0 + (p0 - s0)) s)
        else Except.error AlignmentError.negativeTimestamp
      else Except.error AlignmentError.alignmentImpossible) := by
  unfold applyShiftPolicy
  simp only [hb]

lemma applyShiftPolicy_branch23 (p0 s0 : ℚ) (s : Session)
    (hb : selectBranch (p0 - s0) (s.secondaryRaw.headD s0) ≠ ShiftBranch.branch1) :
    applyShiftPolicy p0 s0 s =
      (if ∀ t ∈ (shiftSecondary (p0 - s0) s).secondaryTimestamps, 0 ≤ t then
        Except.ok (shiftSecondary (p0 - s0) s)
      else Except.error AlignmentError.negativeTimestamp) := by
  unfold applyShiftPolicy
  cases hsel : selectBranch (p0 - s0) (s.secondaryRaw.headD s0) with
  | branch1 => exact absurd hsel hb
  | branch2 => simp only [hsel]
  | branch3 => simp only [hsel]

lemma alignSession_branch1_ok (s : Session) (p0 s0 : ℚ)
    (hp : s.primaryMarkers.head? = some p0)
    (hs : s.secondaryMarkers.head? = some s0)
    (hlen : s.primaryMarkers.length = s.secondaryMarkers.length)
    (hb : selectBranch (p0 - s0) (s.secondaryRaw.headD s0) = ShiftBranch.branch1)
    (h1 : ∀ t ∈ (shiftPrimary (s.secondaryRaw.headD s0 + (p0 - s0)) s).primaryTimestamps, 0 ≤ t)
    (h2 : ∀ t ∈ (shiftPrimary (s.secondaryRaw.headD s0 + (p0 - s0)) s).secondaryTimestamps, 0 ≤ t) :
    alignSession s = Except.ok (shiftPrimary (s.secondaryRaw.headD s0 + (p0 - s0)) s) := by
  rw [alignSession_valid s p0 s0 hp hs hlen, applyShiftPolicy_branch1 p0 s0 s hb,
    if_pos h1, if_pos h2]

lemma alignSession_branch23_ok (s : Session) (p0 s0 : ℚ)
    (hp : s.primaryMarkers.head? = some p0)
    (hs : s.secondaryMarkers.head? = some s0)
    (hlen : s.primaryMarkers.length = s.secondaryMarkers.length)
    (hb : selectBranch (p0 - s0) (s.secondaryRaw.headD s0) ≠ ShiftBranch.branch1)
    (h1 : ∀ t ∈ (shiftSecondary (p0 - s0) s).secondaryTimestamps, 0 ≤ t) :
    alignSession s = Except.ok (shiftSecondary (p0 - s0) s) := by
  rw [alignSession_valid s p0 s0 hp hs hlen, applyShiftPolicy_branch23 p0 s0 s hb, if_pos h1]

/-- C3: when branch 1 is selected and alignment succeeds, the primary marker
timeline, every primary-clock series and the ReferenceEpoch are shifted
backward (by the same single, negative amount), while the secondary raw
timeline, the secondary-side derived markers and all other secondary series
are left exactly unchanged. -/
theorem branch1_shifts_primary_and_epoch_backward (s out : Session) (p0 s0 : ℚ)
    (hp : s.primaryMarkers.head? = some p0)
    (hs : s.secondaryMarkers.head? = some s0)
    (hlen : s.primaryMarkers.length = s.secondaryMarkers.length)
    (hb : selectBranch (p0 - s0) (s.secondaryRaw.headD s0) = ShiftBranch.branch1)
    (hok : alignSession s = Except.ok out) :
    s.secondaryRaw.headD s0 + (p0 - s0) < 0 ∧
    out.referenceEpoch = s.referenceEpoch + (s.secondaryRaw.headD s0 + (p0 - s0)) ∧
    out.primaryMarkers =
      aligned_timestamps (s.secondaryRaw.headD s0 + (p0 - s0)) s.primaryMarkers ∧
    out.primarySeries =
      s.primarySeries.map (aligned_timestamps (s.secondaryRaw.headD s0 + (p0 - s0))) ∧
    out.secondaryRaw = s.secondaryRaw ∧
    out.secondaryMarkers = s.secondaryMarkers ∧
    out.secondarySeries = s.secondarySeries := by
  rw [alignSession_valid s p0 s0 hp hs hlen, applyShiftPolicy_branch1 p0 s0 s hb] at hok
  split_ifs at hok with h1 h2
  · have hout : out = shiftPrimary (s.secondaryRaw.headD s0 + (p0 - s0)) s := by
      injection hok with h
      exact h.symm
    subst hout
    refine ⟨?_, rfl, rfl, rfl, rfl, rfl, rfl⟩
    have hcond := (selectBranch_eq_branch1 (p0 - s0) (s.secondaryRaw.headD s0)).mp hb
    linarith [hcond.2]

/-- The session of the C3 witness: a branch-1 input (shift −10, first raw
sample 5, candidate −5 < 0). -/
def sess3 : Session :=
  { referenceEpoch := 1000
    primaryMarkers := [20, 30]
    primarySeries := [[21, 22]]
    secondaryMarkers := [30, 40]
    secondaryRaw := [5, 6]
    secondarySeries := [[7]] }

/-- Witness for C3 at the concrete branch-1 session `sess3`. -/
theorem branch1_shifts_primary_and_epoch_backward_check :
    sess3.secondaryRaw.headD 30 + (20 - 30) < 0 ∧
    (shiftPrimary (sess3.secondaryRaw.headD 30 + (20 - 30)) sess3).secondaryRaw =
      sess3.secondaryRaw ∧
    (shiftPrimary (sess3.secondaryRaw.headD 30 + (20 - 30)) sess3).referenceEpoch =
      sess3.referenceEpoch + (sess3.secondaryRaw.headD 30 + (20 - 30)) := by
  have hb : selectBranch ((20 : ℚ) - 30) (sess3.secondaryRaw.headD 30) = ShiftBranch.branch1 := by
    norm_num [selectBranch, sess3]
  have h1 : ∀ t ∈ (shiftPrimary (sess3.secondaryRaw.headD 30 + (20 - 30)) sess3).primaryTimestamps,
      0 ≤ t := by
    norm_num [shiftPrimary, sess3, Session.primaryTimestamps, aligned_timestamps]
  have h2 : ∀ t ∈ (shiftPrimary (sess3.secondaryRaw.headD 30 + (20 - 30)) sess3).secondaryTimestamps,
      0 ≤ t := by
    norm_num [shiftPrimary, sess3, Session.secondaryTimestamps]
  have hok := alignSession_branch1_ok sess3 20 30 rfl rfl rfl hb h1 h2
  have h := branch1_shifts_primary_and_epoch_backward sess3
    (shiftPrimary (sess3.secondaryRaw.headD 30 + (20 - 30)) sess3) 20 30 rfl rfl rfl hb hok
  exact ⟨h.1, h.2.2.2.2.1, h.2.1⟩

/-- C4: when branch 2 or branch 3 is selected and alignment succeeds, the
TimeShift is added to every secondary-clock series (raw samples, derived
markers and further secondary series) while the primary marker timeline,
every primary-clock series and the ReferenceEpoch are unchanged. -/
theorem branch23_shifts_secondary_only (s out : Session) (p0 s0 : ℚ)
    (hp : s.primaryMarkers.head? = some p0)
    (hs : s.secondaryMarkers.head? = some s0)
    (hlen : s.primaryMarkers.length = s.secondaryMarkers.length)
    (hb : selectBranch (p0 - s0) (s.secondaryRaw.headD s0) = ShiftBranch.branch2 ∨
          selectBranch (p0 - s0) (s.secondaryRaw.headD s0) = ShiftBranch.branch3)
    (hok : alignSession s = Except.ok out) :
    out.secondaryRaw = aligned_timestamps (p0 - s0) s.secondaryRaw ∧
    out.secondaryMarkers = aligned_timestamps (p0 - s0) s.secondaryMarkers ∧
    out.secondarySeries = s.secondarySeries.map (aligned_timestamps (p0 - s0)) ∧
    out.primaryMarkers = s.primaryMarkers ∧
    out.primarySeries = s.primarySeries ∧
    out.referenceEpoch = s.referenceEpoch := by
  have hb1 : selectBranch (p0 - s0) (s.secondaryRaw.headD s0) ≠ ShiftBranch.branch1 := by
    rcases hb with h | h <;> rw [h] <;> decide
  rw [alignSession_valid s p0 s0 hp hs hlen, applyShiftPolicy_branch23 p0 s0 s hb1] at hok
  split_ifs at hok with h1
  · have hout : out = shiftSecondary (p0 - s0) s := by
      injection hok with h
      exact h.symm
    subst hout
    exact ⟨rfl, rfl, rfl, rfl, rfl, rfl⟩

/-- The session of the C4 witness: a branch-3 input (shift +10). -/
def sess4 : Session :=
  { referenceEpoch := 50
    primaryMarkers := [30]
    primarySeries := [[31]]
    secondaryMarkers := [20]
    secondaryRaw := [1, 2]
    secondarySeries := [[3]] }

/-- Witness for C4 at the concrete branch-3 session `sess4`. -/
theorem branch23_shifts_secondary_only_check :
    (shiftSecondary ((30 : ℚ) - 20) sess4).secondaryRaw =
      aligned_timestamps ((30 : ℚ) - 20) sess4.secondaryRaw ∧
    (shiftSecondary ((30 : ℚ) - 20) sess4).primaryMarkers = sess4.primaryMarkers ∧
    (shiftSecondary ((30 : ℚ) - 20) sess4).referenceEpoch = sess4.referenceEpoch := by
  have hb : selectBranch ((30 : ℚ) - 20) (sess4.secondaryRaw.headD 20) = ShiftBranch.branch3 := by
    norm_num [selectBranch, sess4]
  have h1 : ∀ t ∈ (shiftSecondary ((30 : ℚ) - 20) sess4).secondaryTimestamps, 0 ≤ t := by
    norm_num [shiftSecondary, sess4, Session.secondaryTimestamps, aligned_timestamps]
  have hok := alignSession_branch23_ok sess4 30 20 rfl rfl rfl (by rw [hb]; decide) h1
  have h := branch23_shifts_secondary_only sess4 (shiftSecondary ((30 : ℚ) - 20) sess4)
    30 20 rfl rfl rfl (Or.inr hb) hok
  exact ⟨h.1, h.2.2.2.1, h.2.2.2.2.2⟩

/-- C9: when the marker timelines differ in length or either is empty, the
engine fails with the fatal `inputMismatch` error; no aligned session is
produced (the result carries no Session value), so no shift is applied and
no output is written. -/
theorem empty_or_mismatched_markers_error (s : Session)
    (h : s.primaryMarkers = [] ∨ s.secondaryMarkers = [] ∨
         s.primaryMarkers.length ≠ s.secondaryMarkers.length) :
    alignSession s = Except.error AlignmentError.inputMismatch := by
  unfold alignSession
  rcases h with h | h | h
  · rw [h]
    simp
  · rw [h]
    cases s.primaryMarkers.head? <;> simp
  · cases hp : s.primaryMarkers.head? <;> cases hs : s.secondaryMarkers.head? <;> simp [h]

/-- The session of the C9 witness: an empty secondary marker timeline. -/
def sess9 : Session :=
  { referenceEpoch := 0
    primaryMarkers := [1]
    primarySeries := []
    secondaryMarkers := []
    secondaryRaw := []
    secondarySeries := [] }

/-- Witness for C9 at the concrete mismatched session `sess9`. -/
theorem empty_or_mismatched_markers_error_check :
    alignSession sess9 = Except.error AlignmentError.inputMismatch :=
  empty_or_mismatched_markers_error sess9 (Or.inr (Or.inl rfl))

lemma time_shift_of_heads (cp : ClockPair) (a b : ℚ)
    (ha : cp.primary.head? = some a) (hb : cp.secondary.head? = some b) :
    cp.time_shift = some (a - b) := by
  obtain ⟨p, s⟩ := cp
  cases p with
  | nil => cases ha
  | cons x xt =>
    cases s with
    | nil => cases hb
    | cons y yt =>
      simp only [List.head?_cons, Option.some.injEq] at ha hb
      subst ha
      subst hb
      rfl

/-- C5 (amended): for every session with non-empty, equal-length marker
timelines on which the engine succeeds, no timestamp belonging to the
secondary source of the output is negative; and whenever branch 2 or
branch 3 was selected the aligned primary first marker equals the aligned
secondary first marker exactly (hence within 1e-6 s).  When branch 1 is
selected the first markers need not coincide. -/
theorem align_postcondition (s out : Session) (p0 s0 : ℚ)
    (hp : s.primaryMarkers.head? = some p0)
    (hs : s.secondaryMarkers.head? = some s0)
    (hlen : s.primaryMarkers.length = s.secondaryMarkers.length)
    (hok : alignSession s = Except.ok out) :
    (∀ t ∈ out.secondaryTimestamps, 0 ≤ t) ∧
    (selectBranch (p0 - s0) (s.secondaryRaw.headD s0) ≠ ShiftBranch.branch1 →
      out.primaryMarkers.head? = out.secondaryMarkers.head?) := by
  rw [alignSession_valid s p0 s0 hp hs hlen] at hok
  by_cases hb : selectBranch (p0 - s0) (s.secondaryRaw.headD s0) = ShiftBranch.branch1
  · rw [applyShiftPolicy_branch1 p0 s0 s hb] at hok
    split_ifs at hok with h1 h2
    have hout : out = shiftPrimary (s.secondaryRaw.headD s0 + (p0 - s0)) s := by
      injection hok with h
      exact h.symm
    subst hout
    exact ⟨h2, fun hne => absurd hb hne⟩
  · rw [applyShiftPolicy_branch23 p0 s0 s hb] at hok
    split_ifs at hok with h1
    have hout : out = shiftSecondary (p0 - s0) s := by
      injection hok with h
      exact h.symm
    subst hout
    refine ⟨h1, fun _ => ?_⟩
    show s.primaryMarkers.head? = (aligned_timestamps (p0 - s0) s.secondaryMarkers).head?
    rw [aligned_timestamps_head, hp, hs]
    show some p0 = some (s0 + (p0 - s0))
    congr 1
    ring

/-- The session of the C5 witness: a branch-2 input (shift −1, first raw
sample 1, candidate 0). -/
def sess5w : Session :=
  { referenceEpoch := 0
    primaryMarkers := [2]
    primarySeries := []
    secondaryMarkers := [3]
    secondaryRaw := [1]
    secondarySeries := [] }

/-- Witness for the amended C5 at the concrete branch-2 session `sess5w`. -/
theorem align_postcondition_check :
    (∀ t ∈ (shiftSecondary ((2 : ℚ) - 3) sess5w).secondaryTimestamps, 0 ≤ t) ∧
    (shiftSecondary ((2 : ℚ) - 3) sess5w).primaryMarkers.head? =
      (shiftSecondary ((2 : ℚ) - 3) sess5w).secondaryMarkers.head? := by
  have hb : selectBranch ((2 : ℚ) - 3) (sess5w.secondaryRaw.headD 3) ≠ ShiftBranch.branch1 := by
    have : selectBranch ((2 : ℚ) - 3) (sess5w.secondaryRaw.headD 3) = ShiftBranch.branch2 := by
      norm_num [selectBranch, sess5w]
    rw [this]
    decide
  have h1 : ∀ t ∈ (shiftSecondary ((2 : ℚ) - 3) sess5w).secondaryTimestamps, 0 ≤ t := by
    norm_num [shiftSecondary, sess5w, Session.secondaryTimestamps, aligned_timestamps]
  have hok := alignSession_branch23_ok sess5w 2 3 rfl rfl rfl hb h1
  have h := align_postcondition sess5w (shiftSecondary ((2 : ℚ) - 3) sess5w) 2 3
    rfl rfl rfl hok
  exact ⟨h.1, h.2 hb⟩

/-- The session of the C5 counterexample: a branch-1 input (shift −10, first
raw sample 5). -/
def sess5c : Session :=
  { referenceEpoch := 100
    primaryMarkers := [20, 30]
    primarySeries := []
    secondaryMarkers := [30, 40]
    secondaryRaw := [5]
    secondarySeries := [] }

/-- C5 counterexample: on the branch-1 session `sess5c` (non-empty,
equal-length markers, alignment succeeds) the aligned primary first marker
(15) and the aligned secondary first marker (30) differ by 15 s, far beyond
the 1e-6 s tolerance, refuting the claim's universal first-marker
coincidence. -/
theorem align_postcondition_fails_in_branch1 :
    sess5c.primaryMarkers ≠ [] ∧ sess5c.secondaryMarkers ≠ [] ∧
    sess5c.primaryMarkers.length = sess5c.secondaryMarkers.length ∧
    alignSession sess5c =
      Except.ok (shiftPrimary (sess5c.secondaryRaw.headD 30 + (20 - 30)) sess5c) ∧
    ¬ |(shiftPrimary (sess5c.secondaryRaw.headD 30 + (20 - 30)) sess5c).primaryMarkers.headD 0 -
        (shiftPrimary (sess5c.secondaryRaw.headD 30 + (20 - 30)) sess5c).secondaryMarkers.headD 0| ≤
      1 / 1000000 := by
  refine ⟨by decide, by decide, rfl, ?_, ?_⟩
  · refine alignSession_branch1_ok sess5c 20 30 rfl rfl rfl ?_ ?_ ?_
    · norm_num [selectBranch, sess5c]
    · norm_num [shiftPrimary, sess5c, Session.primaryTimestamps, aligned_timestamps]
    · norm_num [shiftPrimary, sess5c, Session.secondaryTimestamps]
  · norm_num [shiftPrimary, sess5c, aligned_timestamps]

/-- C6: running the engine on an already-aligned session (equal first
markers) computes a TimeShift of exactly 0 and, when it succeeds, returns
every timeline and the ReferenceEpoch unchanged. -/
theorem align_noop_on_aligned (s out : Session) (m : ℚ)
    (hp : s.primaryMarkers.head? = some m)
    (hs : s.secondaryMarkers.head? = some m)
    (hlen : s.primaryMarkers.length = s.secondaryMarkers.length)
    (hok : alignSession s = Except.ok out) :
    (ClockPair.mk s.primaryMarkers s.secondaryMarkers).time_shift = some 0 ∧ out = s := by
  have hzero : m - m = 0 := by ring
  constructor
  · rw [time_shift_of_heads (ClockPair.mk s.primaryMarkers s.secondaryMarkers) m m hp hs,
      hzero]
  · have hb : selectBranch (m - m) (s.secondaryRaw.headD m) ≠ ShiftBranch.branch1 := by
      rw [hzero]
      unfold selectBranch
      rw [if_neg (lt_irrefl (0 : ℚ))]
      decide
    rw [alignSession_valid s m m hp hs hlen, applyShiftPolicy_branch23 m m s hb] at hok
    split_ifs at hok with h1
    have hout : out = shiftSecondary (m - m) s := by
      injection hok with h
      exact h.symm
    rw [hout, hzero, shiftSecondary_zero]

/-- The session of the C6 witness: already aligned (both first markers 5). -/
def sess6 : Session :=
  { referenceEpoch := 0
    primaryMarkers := [5]
    primarySeries := []
    secondaryMarkers := [5]
    secondaryRaw := [5]
    secondarySeries := [] }

/-- Witness for C6 at the concrete aligned session `sess6`. -/
theorem align_noop_on_aligned_check :
    (ClockPair.mk sess6.primaryMarkers sess6.secondaryMarkers).time_shift = some 0 ∧
    shiftSecondary ((5 : ℚ) - 5) sess6 = sess6 := by
  have hb : selectBranch ((5 : ℚ) - 5) (sess6.secondaryRaw.headD 5) ≠ ShiftBranch.branch1 := by
    have : selectBranch ((5 : ℚ) - 5) (sess6.secondaryRaw.headD 5) = ShiftBranch.branch3 := by
      norm_num [selectBranch, sess6]
    rw [this]
    decide
  have h1 : ∀ t ∈ (shiftSecondary ((5 : ℚ) - 5) sess6).secondaryTimestamps, 0 ≤ t := by
    norm_num [shiftSecondary, sess6, Session.secondaryTimestamps, aligned_timestamps]
  have hok := alignSession_branch23_ok sess6 5 5 rfl rfl rfl hb h1
  exact align_noop_on_aligned sess6 (shiftSecondary ((5 : ℚ) - 5) sess6) 5 rfl rfl rfl hok

/-- The Scenario A session of C7: primary markers [19.988, 39.715],
secondary markers [48.570, 68.298], secondary first raw-sample time 29.74. -/
def sessA : Session :=
  { referenceEpoch := 0
    primaryMarkers := [19.988, 39.715]
    primarySeries := []
    secondaryMarkers := [48.570, 68.298]
    secondaryRaw := [29.74]
    secondarySeries := [] }

/-- C7: on Scenario A the engine computes the TimeShift
19.988 − 48.570 = −28.582, the candidate aligned first sample
29.74 − 28.582 = 1.158 is non-negative, branch 2 is selected, every
secondary timestamp is shifted by −28.582, and the aligned secondary first
marker equals 19.988. -/
theorem scenarioA_alignment :
    (ClockPair.mk sessA.primaryMarkers sessA.secondaryMarkers).time_shift =
      some (-28.582) ∧
    (19.988 : ℚ) - 48.570 = -28.582 ∧
    (29.74 : ℚ) + (19.988 - 48.570) = 1.158 ∧
    (0 : ℚ) ≤ 29.74 + (19.988 - 48.570) ∧
    selectBranch ((19.988 : ℚ) - 48.570) (sessA.secondaryRaw.headD 48.570) =
      ShiftBranch.branch2 ∧
    alignSession sessA = Except.ok (shiftSecondary ((19.988 : ℚ) - 48.570) sessA) ∧
    (shiftSecondary ((19.988 : ℚ) - 48.570) sessA).secondaryRaw =
      aligned_timestamps (-28.582) sessA.secondaryRaw ∧
    (shiftSecondary ((19.988 : ℚ) - 48.570) sessA).secondaryMarkers =
      aligned_timestamps (-28.582) sessA.secondaryMarkers ∧
    (shiftSecondary ((19.988 : ℚ) - 48.570) sessA).secondaryMarkers.head? =
      some 19.988 := by
  have hd : (19.988 : ℚ) - 48.570 = -28.582 := by norm_num
  have hb : selectBranch ((19.988 : ℚ) - 48.570) (sessA.secondaryRaw.headD 48.570) =
      ShiftBranch.branch2 := by
    norm_num [selectBranch, sessA]
  refine ⟨?_, hd, by norm_num, by norm_num, hb, ?_, ?_, ?_, ?_⟩
  · rw [time_shift_of_heads (ClockPair.mk sessA.primaryMarkers sessA.secondaryMarkers)
      19.988 48.570 rfl rfl, hd]
  · refine alignSession_branch23_ok sessA 19.988 48.570 rfl rfl rfl ?_ ?_
    · rw [hb]
      decide
    · norm_num [shiftSecondary, sessA, Session.secondaryTimestamps, aligned_timestamps]
  · rw [← hd]
    rfl
  · rw [← hd]
    rfl
  · show (aligned_timestamps ((19.988 : ℚ) - 48.570) sessA.secondaryMarkers).head? =
      some 19.988
    rw [aligned_timestamps_head]
    show some ((48.570 : ℚ) + (19.988 - 48.570)) = some 19.988
    norm_num

/-- C8: for every trial and every trial-relative state/event/action offset,
the reconstructed absolute timestamp equals the trial's start time plus the
relative offset, uniformly for state-interval tables, discrete-event tables
and action tables keyed by trial index. -/
theorem trial_relative_reconstruction (starts : List ℚ) (k i : Nat)
    (t r1 r2 re ra : ℚ) (states : List (Nat × ℚ × ℚ)) (events actions : List (Nat × ℚ))
    (ht : starts[i]? = some t) :
    (states[k]? = some (i, r1, r2) →
      (reconstructStateTable starts states)[k]? = some (some (t + r1, t + r2))) ∧
    (events[k]? = some (i, re) →
      (reconstructEventTable starts events)[k]? = some (some (t + re))) ∧
    (actions[k]? = some (i, ra) →
      (reconstructActionTable starts actions)[k]? = some (some (t + ra))) := by
  refine ⟨fun hk => ?_, fun hk => ?_, fun hk => ?_⟩
  · unfold reconstructStateTable
    rw [List.getElem?_map, hk]
    simp [ht]
  · unfold reconstructEventTable
    rw [List.getElem?_map, hk]
    simp [absoluteEventTime, ht]
  · unfold reconstructActionTable
    rw [List.getElem?_map, hk]
    simp [absoluteEventTime, ht]

/-- Witness for C8: aligned trial start 100.0, state offsets [0.2, 1.1]
reconstruct to [100.2, 101.1]; event offset 0.5 to 100.5; action offset 0.7
to 100.7. -/
theorem trial_relative_reconstruction_check :
    (reconstructStateTable [100] [(0, 0.2, 1.1)])[0]? =
      some (some ((100.2 : ℚ), (101.1 : ℚ))) ∧
    (reconstructEventTable [100] [(0, 0.5)])[0]? = some (some (100.5 : ℚ)) ∧
    (reconstructActionTable [100] [(0, 0.7)])[0]? = some (some (100.7 : ℚ)) := by
  have h := trial_relative_reconstruction [100] 0 0 100 0.2 1.1 0.5 0.7
    [(0, 0.2, 1.1)] [(0, 0.5)] [(0, 0.7)] rfl
  have e1 : (100 : ℚ) + 0.2 = 100.2 := by norm_num
  have e2 : (100 : ℚ) + 1.1 = 101.1 := by norm_num
  have e3 : (100 : ℚ) + 0.5 = 100.5 := by norm_num
  have e4 : (100 : ℚ) + 0.7 = 100.7 := by norm_num
  refine ⟨?_, ?_, ?_⟩
  · rw [← e1, ← e2]
    exact h.1 rfl
  · rw [← e3]
    exact h.2.1 rfl
  · rw [← e4]
    exact h.2.2 rfl
